import Mathlib

set_option maxRecDepth 8000

/-!
# Verification of the ColorSpector color-resolution and history-state engine

Shallow embedding of `main.py`: the `ColorProcessor` color state machine
(`rgb_to_hex`, `closest_color_name`, `get_color_name`, `update_current_color`,
`toggle_freeze`), the `ColorHistory` bounded most-recent-first list
(`add_color`), and the `ColorDetectorApp` operations that carry state logic
(`update_color` sampling tick, `select_history_color` history replay).

The program builds its reference color table from the `webcolors` library
(`CSS3_HEX_TO_NAMES`, `hex_to_rgb`, `rgb_to_name`); those library pieces are
embedded here as well, from the standard CSS3 named-color data that library
ships: a names-to-hex dictionary in its source (alphabetical) order, reversed
with Python dict semantics (later duplicate values overwrite the stored name,
insertion position is kept).

Machine integers: all channel values are `Nat` (Python ints are unbounded;
the sampling backend only ever produces 0..255). Fallible Python code
(raising `ValueError` / capture exceptions) is embedded with `Option` /
`Except`.
-/

/-- An RGB triple, channels as natural numbers. -/
abbrev RGB := Nat × Nat × Nat

/-! ## Hex encoding and decoding

`rgb_to_hex` embeds `ColorProcessor.rgb_to_hex`, i.e. the Python format
string `f"#{r:02x}{g:02x}{b:02x}"`: lowercase hex digits, zero-padded to
width two per channel. `Nat.toDigits 16` produces exactly Python's lowercase
hex digit string for a nonnegative integer. -/

/-- One channel rendered as Python `"{:02x}"`: lowercase hex, left
zero-padded to at least two characters. -/
def pyHex2 (n : Nat) : String :=
  let ds := Nat.toDigits 16 n
  ⟨List.replicate (2 - ds.length) '0' ++ ds⟩

/-- `ColorProcessor.rgb_to_hex`: `f"#{r:02x}{g:02x}{b:02x}"`. -/
def rgb_to_hex (rgb : RGB) : String :=
  "#" ++ pyHex2 rgb.1 ++ pyHex2 rgb.2.1 ++ pyHex2 rgb.2.2

/-- Value of a single hex digit character (Python `int(c, 16)`, both cases
accepted), `none` on a non-hex character. -/
def hexCharVal? (c : Char) : Option Nat :=
  if '0' ≤ c ∧ c ≤ '9' then some (c.toNat - 48)
  else if 'a' ≤ c ∧ c ≤ 'f' then some (c.toNat - 87)
  else if 'A' ≤ c ∧ c ≤ 'F' then some (c.toNat - 55)
  else none

/-- Character-level body of `webcolors.hex_to_rgb`: accepts `#rrggbb` or
`#rgb` (the three-digit form doubles each digit, so digit `a` contributes
`0xaa = 17 * a`), case-insensitive; anything else is a `ValueError`,
embedded as `none`. -/
def parseHexChars : List Char → Option RGB
  | ['#', c1, c2, c3, c4, c5, c6] =>
    match hexCharVal? c1, hexCharVal? c2, hexCharVal? c3,
          hexCharVal? c4, hexCharVal? c5, hexCharVal? c6 with
    | some h1, some h2, some h3, some h4, some h5, some h6 =>
        some (h1 * 16 + h2, h3 * 16 + h4, h5 * 16 + h6)
    | _, _, _, _, _, _ => none
  | ['#', c1, c2, c3] =>
    match hexCharVal? c1, hexCharVal? c2, hexCharVal? c3 with
    | some h1, some h2, some h3 => some (h1 * 17, h2 * 17, h3 * 17)
    | _, _, _ => none
  | _ => none

/-- `webcolors.hex_to_rgb` (normalize + parse). -/
def hex_to_rgb (s : String) : Option RGB :=
  parseHexChars s.data

/-- Python `str.upper()` restricted to ASCII data, as used on `#rrggbb`
strings: uppercase every letter. -/
def pyUpper (s : String) : String :=
  ⟨s.data.map Char.toUpper⟩

/-- Helper for `pythonTitle`: `prevCased` records whether the previous
character was alphabetic. -/
def titleAux : Bool → List Char → List Char
  | _, [] => []
  | prevCased, c :: cs =>
    (if c.isAlpha then (if prevCased then c.toLower else c.toUpper) else c)
      :: titleAux c.isAlpha cs

/-- Python `str.title()`: the first letter of every alphabetic run is
uppercased, the rest lowercased, non-letters pass through. -/
def pythonTitle (s : String) : String :=
  ⟨titleAux false s.data⟩

/-! ## The reference color table

`webcolors.CSS3_NAMES_TO_HEX`: the 147 CSS3 extended color keywords, listed
in the library's source order (alphabetical). -/

/-- `webcolors.CSS3_NAMES_TO_HEX` as an ordered association list. -/
def css3NamesToHex : List (String × String) := [
  ("aliceblue", "#f0f8ff"), ("antiquewhite", "#faebd7"), ("aqua", "#00ffff"),
  ("aquamarine", "#7fffd4"), ("azure", "#f0ffff"), ("beige", "#f5f5dc"),
  ("bisque", "#ffe4c4"), ("black", "#000000"), ("blanchedalmond", "#ffebcd"),
  ("blue", "#0000ff"), ("blueviolet", "#8a2be2"), ("brown", "#a52a2a"),
  ("burlywood", "#deb887"), ("cadetblue", "#5f9ea0"), ("chartreuse", "#7fff00"),
  ("chocolate", "#d2691e"), ("coral", "#ff7f50"), ("cornflowerblue", "#6495ed"),
  ("cornsilk", "#fff8dc"), ("crimson", "#dc143c"), ("cyan", "#00ffff"),
  ("darkblue", "#00008b"), ("darkcyan", "#008b8b"), ("darkgoldenrod", "#b8860b"),
  ("darkgray", "#a9a9a9"), ("darkgreen", "#006400"), ("darkgrey", "#a9a9a9"),
  ("darkkhaki", "#bdb76b"), ("darkmagenta", "#8b008b"),
  ("darkolivegreen", "#556b2f"), ("darkorange", "#ff8c00"),
  ("darkorchid", "#9932cc"), ("darkred", "#8b0000"), ("darksalmon", "#e9967a"),
  ("darkseagreen", "#8fbc8f"), ("darkslateblue", "#483d8b"),
  ("darkslategray", "#2f4f4f"), ("darkslategrey", "#2f4f4f"),
  ("darkturquoise", "#00ced1"), ("darkviolet", "#9400d3"),
  ("deeppink", "#ff1493"), ("deepskyblue", "#00bfff"), ("dimgray", "#696969"),
  ("dimgrey", "#696969"), ("dodgerblue", "#1e90ff"), ("firebrick", "#b22222"),
  ("floralwhite", "#fffaf0"), ("forestgreen", "#228b22"),
  ("fuchsia", "#ff00ff"), ("gainsboro", "#dcdcdc"), ("ghostwhite", "#f8f8ff"),
  ("gold", "#ffd700"), ("goldenrod", "#daa520"), ("gray", "#808080"),
  ("green", "#008000"), ("greenyellow", "#adff2f"), ("grey", "#808080"),
  ("honeydew", "#f0fff0"), ("hotpink", "#ff69b4"), ("indianred", "#cd5c5c"),
  ("indigo", "#4b0082"), ("ivory", "#fffff0"), ("khaki", "#f0e68c"),
  ("lavender", "#e6e6fa"), ("lavenderblush", "#fff0f5"),
  ("lawngreen", "#7cfc00"), ("lemonchiffon", "#fffacd"),
  ("lightblue", "#add8e6"), ("lightcoral", "#f08080"),
  ("lightcyan", "#e0ffff"), ("lightgoldenrodyellow", "#fafad2"),
  ("lightgray", "#d3d3d3"), ("lightgreen", "#90ee90"),
  ("lightgrey", "#d3d3d3"), ("lightpink", "#ffb6c1"),
  ("lightsalmon", "#ffa07a"), ("lightseagreen", "#20b2aa"),
  ("lightskyblue", "#87cefa"), ("lightslategray", "#778899"),
  ("lightslategrey", "#778899"), ("lightsteelblue", "#b0c4de"),
  ("lightyellow", "#ffffe0"), ("lime", "#00ff00"), ("limegreen", "#32cd32"),
  ("linen", "#faf0e6"), ("magenta", "#ff00ff"), ("maroon", "#800000"),
  ("mediumaquamarine", "#66cdaa"), ("mediumblue", "#0000cd"),
  ("mediumorchid", "#ba55d3"), ("mediumpurple", "#9370db"),
  ("mediumseagreen", "#3cb371"), ("mediumslateblue", "#7b68ee"),
  ("mediumspringgreen", "#00fa9a"), ("mediumturquoise", "#48d1cc"),
  ("mediumvioletred", "#c71585"), ("midnightblue", "#191970"),
  ("mintcream", "#f5fffa"), ("mistyrose", "#ffe4e1"), ("moccasin", "#ffe4b5"),
  ("navajowhite", "#ffdead"), ("navy", "#000080"), ("oldlace", "#fdf5e6"),
  ("olive", "#808000"), ("olivedrab", "#6b8e23"), ("orange", "#ffa500"),
  ("orangered", "#ff4500"), ("orchid", "#da70d6"),
  ("palegoldenrod", "#eee8aa"), ("palegreen", "#98fb98"),
  ("paleturquoise", "#afeeee"), ("palevioletred", "#db7093"),
  ("papayawhip", "#ffefd5"), ("peachpuff", "#ffdab9"), ("peru", "#cd853f"),
  ("pink", "#ffc0cb"), ("plum", "#dda0dd"), ("powderblue", "#b0e0e6"),
  ("purple", "#800080"), ("red", "#ff0000"), ("rosybrown", "#bc8f8f"),
  ("royalblue", "#4169e1"), ("saddlebrown", "#8b4513"), ("salmon", "#fa8072"),
  ("sandybrown", "#f4a460"), ("seagreen", "#2e8b57"), ("seashell", "#fff5ee"),
  ("sienna", "#a0522d"), ("silver", "#c0c0c0"), ("skyblue", "#87ceeb"),
  ("slateblue", "#6a5acd"), ("slategray", "#708090"),
  ("slategrey", "#708090"), ("snow", "#fffafa"), ("springgreen", "#00ff7f"),
  ("steelblue", "#4682b4"), ("tan", "#d2b48c"), ("teal", "#008080"),
  ("thistle", "#d8bfd8"), ("tomato", "#ff6347"), ("turquoise", "#40e0d0"),
  ("violet", "#ee82ee"), ("wheat", "#f5deb3"), ("white", "#ffffff"),
  ("whitesmoke", "#f5f5f5"), ("yellow", "#ffff00"),
  ("yellowgreen", "#9acd32")]

/-- Python dict update: overwrite the value at an existing key in place,
otherwise append the binding at the end. -/
def updateOrAppend (l : List (String × String)) (k v : String) :
    List (String × String) :=
  if l.any (fun p => p.1 == k) then
    l.map (fun p => if p.1 == k then (k, v) else p)
  else l ++ [(k, v)]

/-- `webcolors._reversedict`: `{value: key for key, value in d.items()}` with
Python dict semantics (a repeated value keeps its first insertion position
but ends up mapped to the last key that produced it). -/
def reversedict (d : List (String × String)) : List (String × String) :=
  d.foldl (fun acc p => updateOrAppend acc p.2 p.1) []

/-- `webcolors.CSS3_HEX_TO_NAMES = _reversedict(CSS3_NAMES_TO_HEX)`, written
out as the resulting literal so that proofs evaluate it cheaply; theorem
`css3HexToNames_eq_reversedict` below checks it against the `reversedict`
construction. Iteration order is the dict's insertion order; the nine CSS3
hex values with two names keep the position of the first name and the
spelling of the second (e.g. `#00ffff` sits at `aqua`'s position but reads
`cyan`). -/
def css3HexToNames : List (String × String) := [
  ("#f0f8ff", "aliceblue"), ("#faebd7", "antiquewhite"), ("#00ffff", "cyan"),
  ("#7fffd4", "aquamarine"), ("#f0ffff", "azure"), ("#f5f5dc", "beige"),
  ("#ffe4c4", "bisque"), ("#000000", "black"), ("#ffebcd", "blanchedalmond"),
  ("#0000ff", "blue"), ("#8a2be2", "blueviolet"), ("#a52a2a", "brown"),
  ("#deb887", "burlywood"), ("#5f9ea0", "cadetblue"), ("#7fff00", "chartreuse"),
  ("#d2691e", "chocolate"), ("#ff7f50", "coral"), ("#6495ed", "cornflowerblue"),
  ("#fff8dc", "cornsilk"), ("#dc143c", "crimson"), ("#00008b", "darkblue"),
  ("#008b8b", "darkcyan"), ("#b8860b", "darkgoldenrod"), ("#a9a9a9", "darkgrey"),
  ("#006400", "darkgreen"), ("#bdb76b", "darkkhaki"), ("#8b008b", "darkmagenta"),
  ("#556b2f", "darkolivegreen"), ("#ff8c00", "darkorange"), ("#9932cc", "darkorchid"),
  ("#8b0000", "darkred"), ("#e9967a", "darksalmon"), ("#8fbc8f", "darkseagreen"),
  ("#483d8b", "darkslateblue"), ("#2f4f4f", "darkslategrey"), ("#00ced1", "darkturquoise"),
  ("#9400d3", "darkviolet"), ("#ff1493", "deeppink"), ("#00bfff", "deepskyblue"),
  ("#696969", "dimgrey"), ("#1e90ff", "dodgerblue"), ("#b22222", "firebrick"),
  ("#fffaf0", "floralwhite"), ("#228b22", "forestgreen"), ("#ff00ff", "magenta"),
  ("#dcdcdc", "gainsboro"), ("#f8f8ff", "ghostwhite"), ("#ffd700", "gold"),
  ("#daa520", "goldenrod"), ("#808080", "grey"), ("#008000", "green"),
  ("#adff2f", "greenyellow"), ("#f0fff0", "honeydew"), ("#ff69b4", "hotpink"),
  ("#cd5c5c", "indianred"), ("#4b0082", "indigo"), ("#fffff0", "ivory"),
  ("#f0e68c", "khaki"), ("#e6e6fa", "lavender"), ("#fff0f5", "lavenderblush"),
  ("#7cfc00", "lawngreen"), ("#fffacd", "lemonchiffon"), ("#add8e6", "lightblue"),
  ("#f08080", "lightcoral"), ("#e0ffff", "lightcyan"), ("#fafad2", "lightgoldenrodyellow"),
  ("#d3d3d3", "lightgrey"), ("#90ee90", "lightgreen"), ("#ffb6c1", "lightpink"),
  ("#ffa07a", "lightsalmon"), ("#20b2aa", "lightseagreen"), ("#87cefa", "lightskyblue"),
  ("#778899", "lightslategrey"), ("#b0c4de", "lightsteelblue"), ("#ffffe0", "lightyellow"),
  ("#00ff00", "lime"), ("#32cd32", "limegreen"), ("#faf0e6", "linen"),
  ("#800000", "maroon"), ("#66cdaa", "mediumaquamarine"), ("#0000cd", "mediumblue"),
  ("#ba55d3", "mediumorchid"), ("#9370db", "mediumpurple"), ("#3cb371", "mediumseagreen"),
  ("#7b68ee", "mediumslateblue"), ("#00fa9a", "mediumspringgreen"), ("#48d1cc", "mediumturquoise"),
  ("#c71585", "mediumvioletred"), ("#191970", "midnightblue"), ("#f5fffa", "mintcream"),
  ("#ffe4e1", "mistyrose"), ("#ffe4b5", "moccasin"), ("#ffdead", "navajowhite"),
  ("#000080", "navy"), ("#fdf5e6", "oldlace"), ("#808000", "olive"),
  ("#6b8e23", "olivedrab"), ("#ffa500", "orange"), ("#ff4500", "orangered"),
  ("#da70d6", "orchid"), ("#eee8aa", "palegoldenrod"), ("#98fb98", "palegreen"),
  ("#afeeee", "paleturquoise"), ("#db7093", "palevioletred"), ("#ffefd5", "papayawhip"),
  ("#ffdab9", "peachpuff"), ("#cd853f", "peru"), ("#ffc0cb", "pink"),
  ("#dda0dd", "plum"), ("#b0e0e6", "powderblue"), ("#800080", "purple"),
  ("#ff0000", "red"), ("#bc8f8f", "rosybrown"), ("#4169e1", "royalblue"),
  ("#8b4513", "saddlebrown"), ("#fa8072", "salmon"), ("#f4a460", "sandybrown"),
  ("#2e8b57", "seagreen"), ("#fff5ee", "seashell"), ("#a0522d", "sienna"),
  ("#c0c0c0", "silver"), ("#87ceeb", "skyblue"), ("#6a5acd", "slateblue"),
  ("#708090", "slategrey"), ("#fffafa", "snow"), ("#00ff7f", "springgreen"),
  ("#4682b4", "steelblue"), ("#d2b48c", "tan"), ("#008080", "teal"),
  ("#d8bfd8", "thistle"), ("#ff6347", "tomato"), ("#40e0d0", "turquoise"),
  ("#ee82ee", "violet"), ("#f5deb3", "wheat"), ("#ffffff", "white"),
  ("#f5f5f5", "whitesmoke"), ("#ffff00", "yellow"), ("#9acd32", "yellowgreen")]

/-- `CSS3_COLORS` (module-level in `main.py`): `[(hex_to_rgb(hex), name) for
hex, name in CSS3_HEX_TO_NAMES.items()]`. The `getD` default is never
reached: every key of the table parses. -/
def CSS3_COLORS : List (RGB × String) :=
  css3HexToNames.map (fun p => ((hex_to_rgb p.1).getD (0, 0, 0), p.2))

/-! ## Name resolution (`ColorProcessor.closest_color_name` / `get_color_name`) -/

/-- Squared Euclidean distance between a table entry's rgb and the requested
rgb: `sum((c1 - c2) ** 2 for c1, c2 in zip(rgb, requested_rgb))`. Python
subtraction of ints is embedded as `Int` subtraction. -/
def dist2 (a b : RGB) : Int :=
  ((a.1 : Int) - b.1) ^ 2 + ((a.2.1 : Int) - b.2.1) ^ 2
    + ((a.2.2 : Int) - b.2.2) ^ 2

/-- One iteration of the `closest_color_name` loop. The accumulator is
`(min_distance, closest_name)`; `none` stands for the initial
`float('inf')`, against which every distance compares smaller. -/
def closeStep (req : RGB) (acc : Option Int × String) (p : RGB × String) :
    Option Int × String :=
  let distance := dist2 p.1 req
  match acc.1 with
  | none => (some distance, p.2)
  | some m => if distance < m then (some distance, p.2) else acc

/-- `ColorProcessor.closest_color_name`: linear scan over `CSS3_COLORS`
keeping the first entry of strictly smallest squared distance; starts from
`min_distance = float('inf')`, `closest_name = ""`. -/
def closest_color_name (req : RGB) : String :=
  (CSS3_COLORS.foldl (closeStep req) (none, "")).2

/-- `webcolors`' conversion of an integer triplet to `#rrggbb` as performed
inside `rgb_to_name`: channels are clamped into `[0, 255]` (only the upper
clamp is visible on `Nat`) and formatted with `"#%02x%02x%02x"`, which is
the same formatting as `rgb_to_hex`. -/
def webcolorsRgbToHex (rgb : RGB) : String :=
  rgb_to_hex (min rgb.1 255, min rgb.2.1 255, min rgb.2.2 255)

/-- `webcolors.rgb_to_name` with the default CSS3 spec: exact lookup of the
triplet's hex form in `CSS3_HEX_TO_NAMES`; the `ValueError` raised on a miss
is embedded as `none`. -/
def webcolors_rgb_to_name (rgb : RGB) : Option String :=
  (css3HexToNames.find? (fun q => q.1 == webcolorsRgbToHex rgb)).map
    (fun q => q.2)

/-- `ColorProcessor.get_color_name`: try the exact name, fall back to the
closest name; `.title()` is applied to whichever branch produced the name. -/
def get_color_name (rgb : RGB) : String :=
  match webcolors_rgb_to_name rgb with
  | some name => pythonTitle name
  | none => pythonTitle (closest_color_name rgb)

/-! ## `ColorProcessor` state -/

/-- The mutable fields of `ColorProcessor`. -/
structure ProcState where
  frozen : Bool
  current_rgb : RGB
  current_hex : String
  current_name : String
deriving DecidableEq

/-- `ColorProcessor.__init__`. -/
def initProcessor : ProcState :=
  { frozen := false, current_rgb := (255, 255, 255),
    current_hex := "#FFFFFF", current_name := "White" }

/-- `ColorProcessor.update_current_color`: stores `rgb` as given, the hex as
`hex_code.upper()`, and recomputes the name from `rgb`. -/
def update_current_color (s : ProcState) (rgb : RGB) (hex_code : String) :
    ProcState :=
  { s with current_rgb := rgb, current_hex := pyUpper hex_code,
           current_name := get_color_name rgb }

/-- `ColorProcessor.toggle_freeze`: flips `frozen` and returns the new
value. -/
def toggle_freeze (s : ProcState) : ProcState × Bool :=
  let s' := { s with frozen := !s.frozen }
  (s', s'.frozen)

/-! ## Sampling tick (`ColorDetectorApp.update_color`)

`get_pixel_color` is a passthrough to the `pyautogui` screen-capture
backend that re-raises both of its failure modes, so a tick's interaction
with it is fully described by an `Except`-valued sample: either an rgb
triple or one of the two error classes the tick's `except` arms
distinguish. -/

/-- The two failure classes of `ColorProcessor.get_pixel_color` as caught by
the tick: the `pyautogui` fail-safe guard, or any other capture error. -/
inductive SampleError where
  | failSafe
  | captureError
deriving DecidableEq

/-- `ColorDetectorApp.update_color`, reduced to its effect on the processor
state: while not frozen, a successful sample is pushed through
`rgb_to_hex`/`update_current_color`; both error classes are caught and only
touch the status bar. The returned `Bool` records that `root.after` is
called to reschedule the next tick — it is outside the `try` block, hence
unconditionally `true`. -/
def update_color (s : ProcState) (sample : Except SampleError RGB) :
    ProcState × Bool :=
  let s' :=
    if s.frozen = false then
      match sample with
      | Except.ok rgb => update_current_color s rgb (rgb_to_hex rgb)
      | Except.error _ => s
    else s
  (s', true)

/-- `ColorDetectorApp.select_history_color`, reduced to its effect on the
processor state: decode the history hex with `webcolors.hex_to_rgb` (a
`ValueError` would propagate, hence `Option`), push the pair through
`update_current_color`, then force `frozen := true`. -/
def select_history_color (s : ProcState) (hex_code : String) :
    Option ProcState :=
  match hex_to_rgb hex_code with
  | some rgb => some { update_current_color s rgb hex_code with frozen := true }
  | none => none

/-! ## `ColorHistory` -/

/-- `ColorHistory.add_color` on the `history` field (`max_colors` passed
explicitly): insert at the front and truncate to `max_colors`, unless the
new hex equals the current head. -/
def add_color (history : List String) (max_colors : Nat) (hex_code : String) :
    List String :=
  if history = [] ∨ history.head? ≠ some hex_code then
    (hex_code :: history).take max_colors
  else history

/-- A sequence of `add_color` calls, oldest first. -/
def push_all (history : List String) (max_colors : Nat) (xs : List String) :
    List String :=
  xs.foldl (fun h x => add_color h max_colors x) history

/-! ## Sanity of the embedding -/

/-- The literal `css3HexToNames` is exactly the Python dict reversal of
`css3NamesToHex`. -/
theorem css3HexToNames_eq_reversedict :
    css3HexToNames = reversedict css3NamesToHex := by decide

example : css3NamesToHex.length = 147 := by decide
example : css3HexToNames.length = 138 := by decide
example : CSS3_COLORS.length = 138 := by decide
example : CSS3_COLORS.head? = some ((240, 248, 255), "aliceblue") := by decide
example : rgb_to_hex (255, 255, 255) = "#ffffff" := by decide
example : rgb_to_hex (0, 255, 0) = "#00ff00" := by decide
example : hex_to_rgb "#00ff00" = some (0, 255, 0) := by decide
example : hex_to_rgb "#0f8" = some (0, 255, 136) := by decide
example : hex_to_rgb "00ff00" = none := by decide
example : pyUpper "#00ff00" = "#00FF00" := by decide
example : pythonTitle "aliceblue" = "Aliceblue" := by decide
example : get_color_name (255, 255, 255) = "White" := by decide
example : get_color_name (0, 255, 0) = "Lime" := by decide

/-! ## Helper lemmas: hex digits -/

/-- For a channel value below 256, Python's `"{:02x}"` renders exactly the
two digit characters of `n / 16` and `n % 16`. -/
theorem pyHex2_data (n : Nat) (h : n < 256) :
    (pyHex2 n).data = [Nat.digitChar (n / 16), Nat.digitChar (n % 16)] := by
  revert h; revert n; decide

/-- `hexCharVal?` inverts `Nat.digitChar` on hex digit values. -/
theorem hexCharVal_digitChar (k : Nat) (h : k < 16) :
    hexCharVal? (Nat.digitChar k) = some k := by
  revert h; revert k; decide

/-- Appending strings concatenates their character data. -/
theorem string_data_append (a b : String) : (a ++ b).data = a.data ++ b.data := by
  cases a; cases b; rfl

/-! ## C5: hex round-trip -/

/-- C5. Hex round-trip: for every rgb triple with each channel in [0,255],
decoding the hex string produced by `rgb_to_hex` (two lowercase zero-padded
hex digits per channel after `#`) with the program's decoder
(`webcolors.hex_to_rgb`) yields the original triple exactly. -/
theorem hex_round_trip (r g b : Nat) (hr : r < 256) (hg : g < 256)
    (hb : b < 256) : hex_to_rgb (rgb_to_hex (r, g, b)) = some (r, g, b) := by
  have e1 : hexCharVal? (Nat.digitChar (r / 16)) = some (r / 16) :=
    hexCharVal_digitChar _ (by omega)
  have e2 : hexCharVal? (Nat.digitChar (r % 16)) = some (r % 16) :=
    hexCharVal_digitChar _ (by omega)
  have e3 : hexCharVal? (Nat.digitChar (g / 16)) = some (g / 16) :=
    hexCharVal_digitChar _ (by omega)
  have e4 : hexCharVal? (Nat.digitChar (g % 16)) = some (g % 16) :=
    hexCharVal_digitChar _ (by omega)
  have e5 : hexCharVal? (Nat.digitChar (b / 16)) = some (b / 16) :=
    hexCharVal_digitChar _ (by omega)
  have e6 : hexCharVal? (Nat.digitChar (b % 16)) = some (b % 16) :=
    hexCharVal_digitChar _ (by omega)
  have hr' : r / 16 * 16 + r % 16 = r := by omega
  have hg' : g / 16 * 16 + g % 16 = g := by omega
  have hb' : b / 16 * 16 + b % 16 = b := by omega
  rw [show rgb_to_hex (r, g, b) = "#" ++ pyHex2 r ++ pyHex2 g ++ pyHex2 b
        from rfl]
  rw [hex_to_rgb]
  simp only [string_data_append, pyHex2_data r hr, pyHex2_data g hg,
    pyHex2_data b hb, show ("#" : String).data = ['#'] from rfl,
    List.cons_append, List.nil_append]
  simp only [parseHexChars, e1, e2, e3, e4, e5, e6, hr', hg', hb']

/-- Witness for `hex_round_trip` at (12, 0, 255). -/
theorem hex_round_trip_witness :
    12 < 256 ∧ 0 < 256 ∧ 255 < 256 ∧
    hex_to_rgb (rgb_to_hex (12, 0, 255)) = some (12, 0, 255) :=
  ⟨by decide, by decide, by decide,
    hex_round_trip 12 0 255 (by decide) (by decide) (by decide)⟩

/-! ## C1: the stored-hex invariant -/

/-- C1 counterexample. The claim says the stored hex is always the
lowercase canonical re-encoding of the stored rgb, recomputed from rgb when
the hint disagrees. In fact `update_current_color` stores
`hex_code.upper()`: even the sampling path (hint = `rgb_to_hex rgb`) stores
`"#FF0000"`, not the canonical `"#ff0000"`, and a disagreeing hint
(`"#ffffff"` for rgb (0,255,0)) is trusted instead of recomputed. -/
theorem color_invariant_counterexample :
    (update_current_color initProcessor (255, 0, 0)
        (rgb_to_hex (255, 0, 0))).current_hex = "#FF0000"
  ∧ "#FF0000" ≠ rgb_to_hex (255, 0, 0)
  ∧ (update_current_color initProcessor (0, 255, 0) "#ffffff").current_hex
      = "#FFFFFF"
  ∧ "#FFFFFF" ≠ rgb_to_hex (0, 255, 0) := by decide

/-- C1 amended. After `update_current_color(rgb, hex_code)` the stored hex
is `hex_code.upper()` — the uppercased externally supplied hint, trusted
rather than recomputed from rgb (so it matches the canonical re-encoding of
rgb only up to case, and only when the hint was canonical); the name is
recomputed from rgb, the rgb is stored as given, and the frozen flag is
untouched. -/
theorem update_current_color_spec (s : ProcState) (rgb : RGB)
    (hex_code : String) :
    (update_current_color s rgb hex_code).current_rgb = rgb
  ∧ (update_current_color s rgb hex_code).current_hex = pyUpper hex_code
  ∧ (update_current_color s rgb hex_code).current_name = get_color_name rgb
  ∧ (update_current_color s rgb hex_code).frozen = s.frozen :=
  ⟨rfl, rfl, rfl, rfl⟩

/-! ## C2: history replay -/

/-- C2 counterexample. Selecting `"#00ff00"` from history yields
`current_hex = "#00FF00"` (uppercased, not `"#00ff00"`) and
`current_name = "Lime"` (CSS3 names (0,255,0) `lime`; `green` is
(0,128,0)), not `"Green"`; only `frozen = true` holds as claimed. -/
theorem history_replay_counterexample :
    (select_history_color initProcessor "#00ff00").map
        (fun s => (s.current_hex, s.current_name, s.frozen))
      = some ("#00FF00", "Lime", true)
  ∧ "#00FF00" ≠ "#00ff00" ∧ "Lime" ≠ "Green" := by decide

/-- C2 amended. From any processor state, selecting `"#00ff00"` from
history succeeds and yields `current_hex = "#00FF00"`,
`current_name = "Lime"`, `current_rgb = (0,255,0)` and `frozen = true`. -/
theorem history_replay_amended (s : ProcState) :
    select_history_color s "#00ff00" =
      some { frozen := true, current_rgb := (0, 255, 0),
             current_hex := "#00FF00", current_name := "Lime" } := rfl

/-! ## C9: error resilience / atomicity of a failing tick -/

/-- C9. When the sampling backend fails during a tick — with either the
fail-safe guard or a generic capture error — the tick leaves the whole
processor state (current color and frozen flag) exactly as it was, and
still reports `true` for the unconditional `root.after` rescheduling; the
error is consumed inside the tick. -/
theorem tick_error_resilience (s : ProcState) (e : SampleError) :
    update_color s (Except.error e) = (s, true) := by
  cases hf : s.frozen <;> simp [update_color, hf]

/-! ## C8: freeze gating -/

/-- A tick never changes a frozen processor state. -/
theorem update_color_frozen (s : ProcState) (smp : Except SampleError RGB)
    (h : s.frozen = true) : (update_color s smp).1 = s := by
  simp [update_color, h]

/-- Any number of ticks never changes a frozen processor state. -/
theorem foldl_update_color_frozen (samples : List (Except SampleError RGB)) :
    ∀ s : ProcState, s.frozen = true →
      samples.foldl (fun st smp => (update_color st smp).1) s = s := by
  induction samples with
  | nil => intro s _; rfl
  | cons smp rest ih =>
    intro s h
    rw [List.foldl_cons, update_color_frozen s smp h]
    exact ih s h

/-- C8. Freeze gating: when `toggle_freeze` returns `true`, every
subsequent sequence of sampling ticks — whatever each tick's sample or
error is — leaves the current color (rgb, hex, name) unchanged, and the
next `toggle_freeze` returns `false` again. -/
theorem freeze_gating (s : ProcState) (h : (toggle_freeze s).2 = true)
    (samples : List (Except SampleError RGB)) :
    (samples.foldl (fun st smp => (update_color st smp).1)
        (toggle_freeze s).1).current_rgb = s.current_rgb
  ∧ (samples.foldl (fun st smp => (update_color st smp).1)
        (toggle_freeze s).1).current_hex = s.current_hex
  ∧ (samples.foldl (fun st smp => (update_color st smp).1)
        (toggle_freeze s).1).current_name = s.current_name
  ∧ (toggle_freeze (samples.foldl (fun st smp => (update_color st smp).1)
        (toggle_freeze s).1)).2 = false := by
  have hfro : (toggle_freeze s).1.frozen = true := h
  have hs : s.frozen = false := by simpa [toggle_freeze] using h
  rw [foldl_update_color_frozen samples _ hfro]
  exact ⟨rfl, rfl, rfl, by simp [toggle_freeze, hs]⟩

/-- Witness for `freeze_gating`: starting unfrozen, the toggle returns
`true` and two ticks (one successful sample, one capture error) leave the
current color untouched. -/
theorem freeze_gating_witness :
    (toggle_freeze initProcessor).2 = true
  ∧ (([Except.ok ((10 : Nat), (10 : Nat), (10 : Nat)),
       Except.error SampleError.captureError]).foldl
        (fun st smp => (update_color st smp).1)
        (toggle_freeze initProcessor).1).current_hex
      = initProcessor.current_hex :=
  ⟨by decide, (freeze_gating initProcessor (by decide) _).2.1⟩

/-! ## C7: head-only dedup -/

/-- C7. History dedup is head-only: (a) pushing a hex equal to the head is
a no-op; (b) so two consecutive pushes of `"#ff0000"` onto an empty history
leave `["#ff0000"]`; (c) a hex differing from the head is inserted at index
0 (and the list truncated to capacity); (d) the list is not globally
deduplicated: pushing `"#ff0000"`, `"#00ff00"`, `"#ff0000"` leaves the same
hex at the non-adjacent positions 0 and 2. -/
theorem history_dedup :
    (∀ (h : List String) (cap : Nat) (x : String),
        h.head? = some x → add_color h cap x = h)
  ∧ push_all [] 8 ["#ff0000", "#ff0000"] = ["#ff0000"]
  ∧ (∀ (h : List String) (cap : Nat) (x : String),
        h.head? ≠ some x → add_color h cap x = (x :: h).take cap)
  ∧ push_all [] 8 ["#ff0000", "#00ff00", "#ff0000"]
      = ["#ff0000", "#00ff00", "#ff0000"] := by
  refine ⟨?_, by decide, ?_, by decide⟩
  · intro h cap x hh
    cases h with
    | nil => simp at hh
    | cons y t =>
      have hx : y = x := by simpa using hh
      subst hx
      simp [add_color]
  · intro h cap x hh
    rw [add_color, if_pos (Or.inr hh)]

/-- Witness for `history_dedup`: its two conditional parts instantiated at
a concrete history. -/
theorem history_dedup_witness :
    add_color ["#ff0000"] 8 "#ff0000" = ["#ff0000"]
  ∧ add_color ["#00ff00"] 8 "#ff0000"
      = (("#ff0000" : String) :: ["#00ff00"]).take 8 :=
  ⟨history_dedup.1 ["#ff0000"] 8 "#ff0000" rfl,
   history_dedup.2.2.1 ["#00ff00"] 8 "#ff0000" (by decide)⟩

/-! ## C6: history capacity -/

/-- A push preserves `length ≤ capacity`. -/
theorem add_color_length_le (h : List String) (cap : Nat) (x : String)
    (hl : h.length ≤ cap) : (add_color h cap x).length ≤ cap := by
  unfold add_color
  split
  · exact List.length_take_le cap (x :: h)
  · exact hl

/-- Any sequence of pushes preserves `length ≤ capacity`. -/
theorem push_all_length_le (xs : List String) (cap : Nat) :
    ∀ h : List String, h.length ≤ cap → (push_all h cap xs).length ≤ cap := by
  induction xs with
  | nil => intro h hl; exact hl
  | cons x rest ih =>
    intro h hl
    exact ih (add_color h cap x) (add_color_length_le h cap x hl)

/-- C6. History capacity: pushing 10 pairwise-distinct hex values into an
empty history of capacity 8 leaves exactly the last 8 pushed values, most
recent first — `length = 8`, head the 10th value pushed, index 7 the 3rd
value pushed (the oldest two evicted) — and `length ≤ 8` holds after every
push from an empty history, whatever is pushed. -/
theorem history_capacity
    (x1 x2 x3 x4 x5 x6 x7 x8 x9 x10 : String)
    (hne : List.Pairwise (fun a b => a ≠ b)
      [x1, x2, x3, x4, x5, x6, x7, x8, x9, x10]) :
    push_all [] 8 [x1, x2, x3, x4, x5, x6, x7, x8, x9, x10]
      = [x10, x9, x8, x7, x6, x5, x4, x3]
  ∧ (push_all [] 8 [x1, x2, x3, x4, x5, x6, x7, x8, x9, x10]).length = 8
  ∧ (push_all [] 8 [x1, x2, x3, x4, x5, x6, x7, x8, x9, x10]).head?
      = some x10
  ∧ (push_all [] 8 [x1, x2, x3, x4, x5, x6, x7, x8, x9, x10]).get? 7
      = some x3
  ∧ (∀ xs : List String, (push_all [] 8 xs).length ≤ 8) := by
  have h12 : x1 ≠ x2 := List.rel_of_pairwise_cons hne (by simp)
  have t1 := hne.of_cons
  have h23 : x2 ≠ x3 := List.rel_of_pairwise_cons t1 (by simp)
  have t2 := t1.of_cons
  have h34 : x3 ≠ x4 := List.rel_of_pairwise_cons t2 (by simp)
  have t3 := t2.of_cons
  have h45 : x4 ≠ x5 := List.rel_of_pairwise_cons t3 (by simp)
  have t4 := t3.of_cons
  have h56 : x5 ≠ x6 := List.rel_of_pairwise_cons t4 (by simp)
  have t5 := t4.of_cons
  have h67 : x6 ≠ x7 := List.rel_of_pairwise_cons t5 (by simp)
  have t6 := t5.of_cons
  have h78 : x7 ≠ x8 := List.rel_of_pairwise_cons t6 (by simp)
  have t7 := t6.of_cons
  have h89 : x8 ≠ x9 := List.rel_of_pairwise_cons t7 (by simp)
  have t8 := t7.of_cons
  have h910 : x9 ≠ x10 := List.rel_of_pairwise_cons t8 (by simp)
  have key : push_all [] 8 [x1, x2, x3, x4, x5, x6, x7, x8, x9, x10]
      = [x10, x9, x8, x7, x6, x5, x4, x3] := by
    simp [push_all, add_color, h12, h23, h34, h45, h56, h67, h78, h89, h910]
  refine ⟨key, ?_, ?_, ?_, fun xs => push_all_length_le xs 8 [] (by simp)⟩
  · rw [key]; rfl
  · rw [key]; rfl
  · rw [key]; rfl

/-- Witness for `history_capacity` at ten concrete distinct hex values. -/
theorem history_capacity_witness :
    List.Pairwise (fun a b => a ≠ b)
      ["#000001", "#000002", "#000003", "#000004", "#000005",
       "#000006", "#000007", "#000008", "#000009", "#00000a"]
  ∧ push_all [] 8
      ["#000001", "#000002", "#000003", "#000004", "#000005",
       "#000006", "#000007", "#000008", "#000009", "#00000a"]
      = ["#00000a", "#000009", "#000008", "#000007", "#000006",
         "#000005", "#000004", "#000003"] :=
  ⟨by decide,
   (history_capacity "#000001" "#000002" "#000003" "#000004" "#000005"
      "#000006" "#000007" "#000008" "#000009" "#00000a" (by decide)).1⟩

/-! ## The `closest_color_name` loop: first-minimum characterisation -/

/-- Loop invariant of the `closest_color_name` scan. Folding any remaining
list from an accumulator `(some m, nm)` either keeps the accumulator — and
then every remaining distance is at least `m` — or ends on an entry
strictly closer than `m` and than every entry before it, and at least as
close as every entry after it (i.e. the first entry achieving the strict
running minimum). -/
theorem closeFold_spec (req : RGB) (l : List (RGB × String)) :
    ∀ (m : Int) (nm : String),
      (l.foldl (closeStep req) (some m, nm) = (some m, nm)
        ∧ ∀ q ∈ l, m ≤ dist2 q.1 req)
    ∨ (∃ pre p post, l = pre ++ p :: post
        ∧ l.foldl (closeStep req) (some m, nm) = (some (dist2 p.1 req), p.2)
        ∧ dist2 p.1 req < m
        ∧ (∀ q ∈ pre, dist2 p.1 req < dist2 q.1 req)
        ∧ (∀ q ∈ post, dist2 p.1 req ≤ dist2 q.1 req)) := by
  induction l with
  | nil =>
    intro m nm
    left
    exact ⟨rfl, by simp⟩
  | cons p l ih =>
    intro m nm
    rw [List.foldl_cons]
    by_cases hd : dist2 p.1 req < m
    · have hstep : closeStep req (some m, nm) p
          = (some (dist2 p.1 req), p.2) := by
        simp [closeStep, hd]
      rw [hstep]
      rcases ih (dist2 p.1 req) p.2 with ⟨heq, hall⟩ |
        ⟨pre, p', post, hl, heq, hlt, hpre, hpost⟩
      · right
        exact ⟨[], p, l, rfl, heq, hd, by simp, hall⟩
      · right
        refine ⟨p :: pre, p', post, by rw [hl]; rfl, heq,
          lt_trans hlt hd, ?_, hpost⟩
        intro q hq
        rcases List.mem_cons.mp hq with rfl | hq'
        · exact hlt
        · exact hpre q hq'
    · have hstep : closeStep req (some m, nm) p = (some m, nm) := by
        simp [closeStep, hd]
      rw [hstep]
      rcases ih m nm with ⟨heq, hall⟩ |
        ⟨pre, p', post, hl, heq, hlt, hpre, hpost⟩
      · left
        refine ⟨heq, ?_⟩
        intro q hq
        rcases List.mem_cons.mp hq with rfl | hq'
        · exact le_of_not_lt hd
        · exact hall q hq'
      · right
        refine ⟨p :: pre, p', post, by rw [hl]; rfl, heq, hlt, ?_, hpost⟩
        intro q hq
        rcases List.mem_cons.mp hq with rfl | hq'
        · exact lt_of_lt_of_le hlt (le_of_not_lt hd)
        · exact hpre q hq'

/-- `closest_color_name` always lands on the *first* table entry achieving
the minimum squared distance: the table splits as `pre ++ p :: post` with
the result equal to `p`'s name, every entry of `pre` strictly farther, and
no entry of the table strictly closer. -/
theorem closest_color_name_first_min (req : RGB) :
    ∃ pre p post, CSS3_COLORS = pre ++ p :: post
      ∧ closest_color_name req = p.2
      ∧ (∀ q ∈ pre, dist2 p.1 req < dist2 q.1 req)
      ∧ (∀ q ∈ CSS3_COLORS, dist2 p.1 req ≤ dist2 q.1 req) := by
  cases hC : CSS3_COLORS with
  | nil => exact absurd hC (by decide)
  | cons hd tl =>
    have h0 : closest_color_name req
        = (tl.foldl (closeStep req) (some (dist2 hd.1 req), hd.2)).2 := by
      rw [closest_color_name, hC, List.foldl_cons]
      rfl
    rcases closeFold_spec req tl (dist2 hd.1 req) hd.2 with ⟨heq, hall⟩ |
      ⟨pre, p, post, hl, heq, hlt, hpre, hpost⟩
    · refine ⟨[], hd, tl, rfl, by rw [h0, heq], by simp, ?_⟩
      intro q hq
      rcases List.mem_cons.mp hq with rfl | hq'
      · exact le_refl _
      · exact hall q hq'
    · refine ⟨hd :: pre, p, post, by rw [hl]; rfl, by rw [h0, heq], ?_, ?_⟩
      · intro q hq
        rcases List.mem_cons.mp hq with rfl | hq'
        · exact hlt
        · exact hpre q hq'
      · intro q hq
        rcases List.mem_cons.mp hq with rfl | hq'
        · exact le_of_lt hlt
        · rw [hl] at hq'
          rcases List.mem_append.mp hq' with hq1 | hq2
          · exact le_of_lt (hpre q hq1)
          · rcases List.mem_cons.mp hq2 with rfl | hq3
            · exact le_refl _
            · exact hpost q hq3

/-! ## C4: nearest-match correctness, determinism, tie-break -/

/-- C4. For every rgb triple not in the reference table,
`closest_color_name` returns the name of a table entry whose squared
Euclidean distance to the input is ≤ the distance of every other table
entry, with ties broken in favour of the first entry achieving the minimum
in table iteration order (everything in `pre` is strictly farther).
Determinism — repeated calls on the same input return the same name — is
the final (definitionally trivial) conjunct: the embedded scan is a pure
function of the input and the fixed table, with no other state. -/
theorem closest_color_name_spec (req : RGB)
    (_hreq : ∀ q ∈ CSS3_COLORS, q.1 ≠ req) :
    (∃ pre p post, CSS3_COLORS = pre ++ p :: post
      ∧ closest_color_name req = p.2
      ∧ (∀ q ∈ CSS3_COLORS, dist2 p.1 req ≤ dist2 q.1 req)
      ∧ (∀ q ∈ pre, dist2 p.1 req < dist2 q.1 req))
  ∧ closest_color_name req = closest_color_name req := by
  rcases closest_color_name_first_min req with ⟨pre, p, post, h1, h2, h3, h4⟩
  exact ⟨⟨pre, p, post, h1, h2, h4, h3⟩, rfl⟩

/-- Witness for `closest_color_name_spec` at (10, 10, 10), the spec's own
example of an rgb absent from the table. -/
theorem closest_color_name_spec_witness :
    (∀ q ∈ CSS3_COLORS, q.1 ≠ ((10 : Nat), (10 : Nat), (10 : Nat)))
  ∧ ((∃ pre p post, CSS3_COLORS = pre ++ p :: post
        ∧ closest_color_name (10, 10, 10) = p.2
        ∧ (∀ q ∈ CSS3_COLORS,
            dist2 p.1 (10, 10, 10) ≤ dist2 q.1 (10, 10, 10))
        ∧ (∀ q ∈ pre, dist2 p.1 (10, 10, 10) < dist2 q.1 (10, 10, 10)))
      ∧ closest_color_name (10, 10, 10) = closest_color_name (10, 10, 10)) :=
  ⟨by decide, closest_color_name_spec (10, 10, 10) (by decide)⟩

/-! ## C3: exact matches for table entries -/

/-- C3 counterexample. The table entry ((240,248,255), "aliceblue") does
not resolve to exactly its table name: `get_color_name` returns the
title-cased `"Aliceblue"`, not the raw table spelling `"aliceblue"`. -/
theorem exact_match_counterexample :
    ((240, 248, 255), "aliceblue") ∈ CSS3_COLORS
  ∧ get_color_name (240, 248, 255) = "Aliceblue"
  ∧ "Aliceblue" ≠ "aliceblue" := by decide

set_option maxHeartbeats 4000000 in
/-- C3 amended. For every (rgb, name) pair of the reference table,
`get_color_name rgb` returns the title-cased form of that table name, and
the exact lookup (`webcolors.rgb_to_name`) succeeds, so the nearest-match
fallback is not triggered. -/
theorem exact_match_title :
    ∀ p ∈ CSS3_COLORS, get_color_name p.1 = pythonTitle p.2
      ∧ (webcolors_rgb_to_name p.1).isSome := by decide

/-- Witness for `exact_match_title` at the first table entry. -/
theorem exact_match_title_witness :
    get_color_name ((240 : Nat), (248 : Nat), (255 : Nat))
      = pythonTitle "aliceblue"
  ∧ (webcolors_rgb_to_name (240, 248, 255)).isSome :=
  exact_match_title ((240, 248, 255), "aliceblue") (by decide)

/-! ## C10: every resolved name is title-cased -/

set_option maxHeartbeats 4000000 in
/-- No title-cased table name coincides with any raw (lowercase) table
spelling. -/
theorem pythonTitle_ne_table :
    ∀ a ∈ CSS3_COLORS, ∀ b ∈ CSS3_COLORS, pythonTitle a.2 ≠ b.2 := by decide

/-- Whatever the input, `get_color_name` returns the title-cased form of
some table name (from the exact branch or the fallback). -/
theorem get_color_name_mem_title (rgb : RGB) :
    ∃ p ∈ CSS3_COLORS, get_color_name rgb = pythonTitle p.2 := by
  cases hfind : webcolors_rgb_to_name rgb with
  | some name =>
    have hval : (css3HexToNames.find?
        (fun q => q.1 == webcolorsRgbToHex rgb)).map (fun q => q.2)
        = some name := hfind
    rcases Option.map_eq_some'.mp hval with ⟨q, hq, hqname⟩
    refine ⟨((hex_to_rgb q.1).getD (0, 0, 0), q.2),
      List.mem_map_of_mem _ (List.mem_of_find?_eq_some hq), ?_⟩
    show get_color_name rgb = pythonTitle q.2
    simp only [get_color_name, hfind]
    rw [show q.2 = name from hqname]
  | none =>
    rcases closest_color_name_first_min rgb with ⟨pre, p, post, h1, h2, _, _⟩
    refine ⟨p, ?_, ?_⟩
    · rw [h1]
      exact List.mem_append_right _ (List.mem_cons_self _ _)
    · simp only [get_color_name, hfind, h2]

/-- C10. For every rgb triple, the name produced by `get_color_name` —
exact branch or nearest-match fallback — is the title-cased form of a
reference-table name, and never equals any raw lowercase table spelling. -/
theorem get_color_name_always_title (rgb : RGB) :
    (∃ p ∈ CSS3_COLORS, get_color_name rgb = pythonTitle p.2)
  ∧ (∀ p ∈ CSS3_COLORS, get_color_name rgb ≠ p.2) := by
  rcases get_color_name_mem_title rgb with ⟨p0, hp0, heq⟩
  refine ⟨⟨p0, hp0, heq⟩, ?_⟩
  intro p hp hcontra
  exact pythonTitle_ne_table p0 hp0 p hp (heq.symm.trans hcontra)

/-- Witness for `get_color_name_always_title` at (10, 10, 10) (not a table
rgb, so this instance exercises the fallback branch). -/
theorem get_color_name_always_title_witness :
    (∃ p ∈ CSS3_COLORS, get_color_name ((10 : Nat), (10 : Nat), (10 : Nat))
        = pythonTitle p.2)
  ∧ (∀ p ∈ CSS3_COLORS,
      get_color_name ((10 : Nat), (10 : Nat), (10 : Nat)) ≠ p.2) :=
  get_color_name_always_title (10, 10, 10)
